import Mathlib

/-!
Verification of the sudoers policy-authorization engine and the visudo
safe-editing workflow.

The repository provides the visudo workflow (`src/visudo/mod.rs`: the
functions `check` and `run`) and a compliance test-suite for the matching
engine.  The matching engine itself (`Sudoers::read`, the specification-list
evaluator and `decide`) is not part of the provided sources, so it is
modelled from the specification (sections 3, 4.2 and 4.3 of the design
document); the visudo workflow is embedded directly from `visudo/mod.rs`.
-/

/-- Modelled from the spec: a `Diagnostic` is a position-tagged
human-readable parse error, `{ position: SourceLocation, message: Text }`,
with the source location given as line/column.  The concrete diagnostic
type (`crate::sudoers::Error(position, message)`) is not among the provided
sources; `visudo/mod.rs` only destructures it into a position and a message
and renders the message. -/
structure Diagnostic where
  line : Nat
  col : Nat
  message : String
deriving DecidableEq, Repr

namespace Sudoers

/-- Modelled from the spec: the `Identity Predicate` tagged variant
`{ AnyPrincipal, NamedUser(name), NumericUser(uid), NamedGroup(name),
NumericGroup(gid), AliasRef(name) }`.  The engine that defines this type is
not among the provided sources. -/
inductive UserSpecifier where
  | anyPrincipal
  | namedUser (name : String)
  | numericUser (uid : Nat)
  | namedGroup (name : String)
  | numericGroup (gid : Nat)
  | aliasRef (name : String)
deriving DecidableEq, Repr

/-- Modelled from the spec: an `Item` is
`{ negation_count : u32, predicate : Identity Predicate }`; its effective
sign is positive iff `negation_count % 2 == 0` (double negation cancels). -/
structure SpecItem where
  negationCount : Nat
  predicate : UserSpecifier
deriving DecidableEq, Repr

/-- Modelled from the spec: one category of the alias table — named,
ordered lists of items, resolved through an indexed lookup. -/
def AliasTable : Type := List (String × List SpecItem)

/-- Modelled from the spec: `resolve(category, name)` returns the alias
body, or fails (`UnknownAlias`) if absent; an unresolved reference behaves
as "matches nothing" (fail-closed). -/
def lookupAlias : AliasTable → String → Option (List SpecItem)
  | [], _ => none
  | (n, body) :: rest, a => if n == a then some body else lookupAlias rest a

/-- Modelled from the spec: a `PrincipalIdentity` — the candidate identity
tested against a specification list: a name, a numeric id, and the names
and numeric ids of the principal's primary and supplementary groups. -/
structure Principal where
  name : String
  uid : Nat
  groups : List String
  gids : List Nat
deriving DecidableEq, Repr

/-- Modelled from the spec: `base_matches` for an `Identity Predicate`
against a principal — the raw identity test: name equality, numeric id
equality, group-membership test (primary and supplementary groups), or
unconditional true for "any".  An `AliasRef` is handled by the evaluator
itself, never by this raw test (fail-closed here). -/
def principalTest (c : Principal) : UserSpecifier → Bool := fun s =>
  match s with
  | .anyPrincipal => true
  | .namedUser n => c.name == n
  | .numericUser u => c.uid == u
  | .namedGroup g => c.groups.contains g
  | .numericGroup g => c.gids.contains g
  | .aliasRef _ => false

/-- Modelled from the spec: the raw identity test for a textual candidate
(host name, run-as user or group name, command) — name equality or
unconditional true for "any"; an `AliasRef` is handled by the evaluator. -/
def nameTest (s : String) : UserSpecifier → Bool := fun p =>
  match p with
  | .anyPrincipal => true
  | .namedUser n => n == s
  | _ => false

/-- Modelled from the spec, section 4.2: the pure fold over an ordered
specification list with a `decision` accumulator that starts `false`;
whenever an item's base predicate matches the candidate, the decision
becomes the item's effective sign (`negation_count % 2 == 0`), so the last
matching item in source order wins.  `am` resolves an alias reference to
its nested last-match-wins evaluation (`base_matches(AliasRef a, c) =
evaluate(resolve(a), c)`), and `bm` is the raw identity test for the
candidate. -/
def evalItems (am : String → Bool) (bm : UserSpecifier → Bool) :
    List SpecItem → Bool → Bool
  | [], dec => dec
  | it :: rest, dec =>
    let m : Bool :=
      match it.predicate with
      | .aliasRef a => am a
      | p => bm p
    evalItems am bm rest (if m then it.negationCount % 2 == 0 else dec)

/-- Modelled from the spec: alias dereference with traversal depth bounded
by the number of distinct alias definitions — a cyclic or unresolved alias
resolves to "matches nothing" (fail-closed), and the bounded depth makes
cycle handling terminate on adversarial input. -/
def aliasMatches (al : AliasTable) (bm : UserSpecifier → Bool) :
    Nat → String → Bool
  | 0, _ => false
  | fuel + 1, a =>
    match lookupAlias al a with
    | some body => evalItems (aliasMatches al bm fuel) bm body false
    | none => false

/-- Modelled from the spec: `evaluate(list, candidate)` — the last-match-wins
evaluation of a specification list, with alias references expanded through
the same evaluator recursively, depth-bounded by the number of alias
definitions in the table. -/
def evaluate (al : AliasTable) (bm : UserSpecifier → Bool)
    (items : List SpecItem) : Bool :=
  evalItems (aliasMatches al bm al.length) bm items false

/-- Modelled from the spec: a per-rule `Tag` modifier, e.g. "no password
required" (`NOPASSWD`). -/
inductive Tag where
  | noPasswd
deriving DecidableEq, Repr

/-- Modelled from the spec: a `Rule` — one authorization entry with a
principal list, a host list, run-as user and group lists, a command list,
and a tag set. -/
structure Rule where
  principals : List SpecItem
  hosts : List SpecItem
  runasUsers : List SpecItem
  runasGroups : List SpecItem
  commands : List SpecItem
  tags : List Tag
deriving DecidableEq, Repr

/-- Modelled from the spec: the `Policy Model` — the ordered sequence of
rules plus the alias table, keyed by category (principal, host, run-as,
command aliases). -/
structure PolicyModel where
  rules : List Rule
  userAliases : AliasTable
  hostAliases : AliasTable
  runasAliases : AliasTable
  cmndAliases : AliasTable

/-- Modelled from the spec: a `Decision Request` —
`{ principal, host, runas_user, runas_group, command }`. -/
structure Request where
  principal : Principal
  host : String
  runasUser : String
  runasGroup : Option String
  command : String

/-- Modelled from the spec: the `Verdict` — either the distinguished
"no matching rule" outcome, or `authorized = true` together with the tag
set of the last applying rule. -/
inductive Verdict where
  | noMatchingRule
  | authorizedWith (tags : List Tag)
deriving DecidableEq, Repr

/-- Modelled from the spec: the caller must treat the distinguished
"no matching rule" outcome as denial; only an `authorizedWith` verdict is
an authorization. -/
def Verdict.isAuthorized : Verdict → Bool
  | .noMatchingRule => false
  | .authorizedWith _ => true

/-- Tag set carried by a verdict (empty for the no-matching-rule outcome). -/
def Verdict.tagSet : Verdict → List Tag
  | .noMatchingRule => []
  | .authorizedWith ts => ts

/-- Modelled from the spec: a rule "applies" to a request only if the
principal, host, run-as, and command lists all evaluate to `true` for the
request's respective fields (the run-as group list is consulted when the
request names a run-as group). -/
def ruleApplies (m : PolicyModel) (q : Request) (r : Rule) : Bool :=
  evaluate m.userAliases (principalTest q.principal) r.principals &&
  evaluate m.hostAliases (nameTest q.host) r.hosts &&
  evaluate m.runasAliases (nameTest q.runasUser) r.runasUsers &&
  (match q.runasGroup with
   | none => true
   | some g => evaluate m.runasAliases (nameTest g) r.runasGroups) &&
  evaluate m.cmndAliases (nameTest q.command) r.commands

/-- Modelled from the spec: `decide(Policy Model, Decision Request) ->
Verdict` — among all applying rules, the last applying rule in source
order supplies the final verdict (`authorized = true`, its tag set); if no
rule applies the verdict is the distinguished "no matching rule"
outcome. -/
def decide (m : PolicyModel) (q : Request) : Verdict :=
  match (m.rules.filter (ruleApplies m q)).getLast? with
  | none => .noMatchingRule
  | some r => .authorizedWith r.tags

end Sudoers

namespace Visudo

/-- File metadata, as obtained by `check` from `sudoers_file.metadata()`:
the permission mode bits and the owning uid/gid. -/
structure FileMeta where
  mode : Nat
  uid : Nat
  gid : Nat
deriving DecidableEq, Repr

/-- Outcome of the `check` function of `visudo/mod.rs`: success
(`parsed OK`), the bad-permissions error, the wrong-owner error, or the
`invalid sudoers file` error.  The invalid case carries the
`syntax error: <message>` lines printed to stderr, one per diagnostic, in
order, before the error is returned. -/
inductive CheckResult where
  | parsedOK
  | badPerms (mode : Nat)
  | badOwner (uid gid : Nat)
  | invalidSudoersFile (stderrLines : List String)
deriving DecidableEq, Repr

/-- Rendering of parse diagnostics performed by `check` (and by `run`):
one `syntax error: <message>` line per diagnostic, in order. -/
def syntaxErrorLines (errors : List Diagnostic) : List String :=
  errors.map (fun e => "syntax error: " ++ e.message)

/-- Embedding of `check` from `visudo/mod.rs`.  `fileArgGiven` is whether a
file argument was passed (`file_arg.is_some()`); `perms` and `owner` are
the corresponding flags; `meta` is the metadata of the opened sudoers file,
and `errors` the diagnostic sequence returned by `Sudoers::read` on its
contents.  The mode is masked to its low nine bits (`mode & 0o777`); when
the permission check is enabled the mode must be exactly `0o440`, and when
the owner check is enabled the owner must be `(uid, gid) = (0, 0)`; each
check is enabled when no file argument was given or its flag is set, and
both run before the file is parsed. -/
def check (fileArgGiven perms owner : Bool) (meta : FileMeta)
    (errors : List Diagnostic) : CheckResult :=
  let mode := meta.mode &&& 0o777
  if (!fileArgGiven || perms) && (mode != 0o440) then
    .badPerms mode
  else if (!fileArgGiven || owner) && !(meta.uid == 0 && meta.gid == 0) then
    .badOwner meta.uid meta.gid
  else if errors.isEmpty then
    .parsedOK
  else
    .invalidSudoersFile (syntaxErrorLines errors)

/-- Byte strings (`Vec<u8>` contents of the sudoers and temporary files),
embedded as lists of byte values. -/
abbrev Bytes : Type := List Nat

/-- Result of the inner prompt loop of `run`: the user chose `e` (edit
again, byte 101), chose `x` (exit without saving, byte 120), or reading
user input failed.  Any other byte prints `Invalid option` and prompts
again. -/
inductive PromptAnswer where
  | editAgain
  | exitNoSave
  | readError
deriving DecidableEq, Repr

/-- Embedding of the inner `What now? e(x)it without saving / (e)dit again`
prompt loop of `run`: bytes are consumed one at a time; `e` (101) breaks
out to re-edit, `x` (120) returns from `run` without saving, any other
byte repeats the prompt, and exhausted input models the `read_exact`
error, after which `run` returns without saving. -/
def promptLoop : List Nat → PromptAnswer × List Nat
  | [] => (.readError, [])
  | b :: rest =>
    if b == 101 then (.editAgain, rest)
    else if b == 120 then (.exitNoSave, rest)
    else promptLoop rest

/-- How the edit/validate loop of `run` terminates: the staged temporary
file parsed with zero diagnostics (`break`, proceeding to the write step,
carrying the staged contents), the user chose to exit without saving, or
reading user input failed. -/
inductive LoopExit where
  | accepted (tmpContents : Bytes)
  | exitWithoutSaving
  | inputReadError
deriving DecidableEq, Repr

/-- Embedding of the edit/validate `loop` of `run`.  Each iteration runs
the editor on the temporary file — modelled by consuming the next element
of `edits`, the successive contents the editor leaves in the file — then
parses the staged copy.  Zero diagnostics break the loop, carrying the
staged contents to the write step; otherwise the diagnostics are printed
and the prompt loop decides between re-editing and returning without
saving.  `none` means the supplied edit script was exhausted with the loop
still running. -/
def runLoop (parse : Bytes → List Diagnostic) :
    List Bytes → List Nat → Option LoopExit
  | [], _ => none
  | tmp :: moreEdits, inputs =>
    if (parse tmp).isEmpty then some (.accepted tmp)
    else
      match promptLoop inputs with
      | (.editAgain, rest) => runLoop parse moreEdits rest
      | (.exitNoSave, _) => some .exitWithoutSaving
      | (.readError, _) => some .inputReadError

/-- Outcome of `run` with respect to the live sudoers file: its contents
were overwritten with the staged contents, or it was left unwritten
(reported unchanged, exited without saving, or input read error). -/
inductive RunOutcome where
  | wroteSudoers (contents : Bytes)
  | unchanged
  | exitedWithoutSaving
  | inputReadError
deriving DecidableEq, Repr

/-- Whether an outcome of `run` wrote to the live sudoers file. -/
def RunOutcome.writesLive : RunOutcome → Bool
  | .wroteSudoers _ => true
  | _ => false

/-- Embedding of the editing workflow of `run` from `visudo/mod.rs`, after
the setup steps (locking, staging the original contents into the
temporary file): the edit/validate loop runs to completion, and only when
it breaks with an accepted staged copy does `run` reach the write step,
which compares the temporary file's contents with the original contents
read at the start (`sudoers_contents`) and writes the sudoers file only
when they differ, reporting it unchanged otherwise. -/
def runResult (parse : Bytes → List Diagnostic) (originalContents : Bytes)
    (edits : List Bytes) (inputs : List Nat) : Option RunOutcome :=
  match runLoop parse edits inputs with
  | none => none
  | some .exitWithoutSaving => some .exitedWithoutSaving
  | some .inputReadError => some .inputReadError
  | some (.accepted tmp) =>
    if tmp == originalContents then some .unchanged
    else some (.wroteSudoers tmp)

end Visudo

/-! Concrete fixtures taken from the compliance tests in
`sudo-compliance-tests/src/sudoers/user_list.rs`. -/

/-- Specification list `!ghost, %users`. -/
def negFirstList : List Sudoers.SpecItem :=
  [⟨1, .namedUser "ghost"⟩, ⟨0, .namedGroup "users"⟩]

/-- Specification list `%users, !ghost`. -/
def negLastList : List Sudoers.SpecItem :=
  [⟨0, .namedGroup "users"⟩, ⟨1, .namedUser "ghost"⟩]

/-- The principal `ghost`: named `ghost`, a member of group `users`. -/
def ghostP : Sudoers.Principal := ⟨"ghost", 1001, ["users"], [100]⟩

/-- The principal `ferris`: a `users`-member not named `ghost`. -/
def ferrisP : Sudoers.Principal := ⟨"ferris", 1000, ["users"], [100]⟩

/-- Alias table holding `User_Alias ADMINS = %users, !ghost`. -/
def adminsTable : Sudoers.AliasTable :=
  [("ADMINS", [⟨0, .namedGroup "users"⟩, ⟨1, .namedUser "ghost"⟩])]

/-- Specification list `ADMINS` (a single alias reference). -/
def adminsList : List Sudoers.SpecItem := [⟨0, .aliasRef "ADMINS"⟩]

/-- Specification list `%users`. -/
def usersGroupList : List Sudoers.SpecItem := [⟨0, .namedGroup "users"⟩]

/-- A principal literally named `users` that is not a member of group
`users`. -/
def namedUsersP : Sudoers.Principal := ⟨"users", 1500, ["staff"], [50]⟩

/-- The principal `root`. -/
def rootP : Sudoers.Principal := ⟨"root", 0, ["root"], [0]⟩

/-- The specification item `ALL`. -/
def allItem : Sudoers.SpecItem := ⟨0, .anyPrincipal⟩

/-- Specification list `!!root`. -/
def doubleNegList : List Sudoers.SpecItem := [⟨2, .namedUser "root"⟩]

/-- Specification list `!root`. -/
def singleNegList : List Sudoers.SpecItem := [⟨1, .namedUser "root"⟩]

/-- The rule `!!root ALL=(ALL:ALL) NOPASSWD: ALL`. -/
def doubleNegRule : Sudoers.Rule :=
  ⟨doubleNegList, [allItem], [allItem], [allItem], [allItem], [.noPasswd]⟩

/-- Policy model for the text `!!root ALL=(ALL:ALL) NOPASSWD: ALL`. -/
def doubleNegPolicy : Sudoers.PolicyModel := ⟨[doubleNegRule], [], [], [], []⟩

/-- A request by `root` to run a command as `root`. -/
def rootRequest : Sudoers.Request :=
  ⟨rootP, "container", "root", some "root", "/usr/bin/true"⟩

/-- The rule `ALL ALL=(ALL:ALL) NOPASSWD: ALL`. -/
def allRule : Sudoers.Rule :=
  ⟨[allItem], [allItem], [allItem], [allItem], [allItem], [.noPasswd]⟩

/-- Policy model for the text `ALL ALL=(ALL:ALL) NOPASSWD: ALL`. -/
def allPolicy : Sudoers.PolicyModel := ⟨[allRule], [], [], [], []⟩

/-- Policy model for the empty sudoers text. -/
def emptyPolicy : Sudoers.PolicyModel := ⟨[], [], [], [], []⟩

/-- Sample metadata with the conventional permissions and owner. -/
def sampleMeta : Visudo.FileMeta := ⟨0o440, 0, 0⟩

/-- Metadata with bad permission bits (mode `0640`). -/
def badModeMeta : Visudo.FileMeta := ⟨0o640, 0, 0⟩

/-- Metadata with the right mode but a non-root owner. -/
def badOwnerMeta : Visudo.FileMeta := ⟨0o440, 1000, 0⟩

/-- A sample parse diagnostic. -/
def sampleDiag : Diagnostic := ⟨3, 7, "expected a token"⟩

/-- A parser accepting exactly the one-byte contents `[1]`. -/
def parseOnlyOnes : Visudo.Bytes → List Diagnostic :=
  fun b => if b == [1] then [] else [⟨1, 1, "invalid syntax"⟩]

/-- A parser accepting everything. -/
def parseClean : Visudo.Bytes → List Diagnostic := fun _ => []

/-- An edit script: a rejected draft followed by an accepted one. -/
def demoEdits : List Visudo.Bytes := [[0], [1]]

/-- A user-input script: one invalid byte, then `e` (edit again). -/
def demoInputs : List Nat := [55, 101]

/-- A loop that breaks with an accepted staged copy parses that copy with
zero diagnostics: the edit/validate loop of `run` reaches the write step
only after a clean parse of the temporary file. -/
theorem runLoop_accepted_parse_empty
    (parse : Visudo.Bytes → List Diagnostic) (edits : List Visudo.Bytes)
    (inputs : List Nat) (tmp : Visudo.Bytes)
    (h : Visudo.runLoop parse edits inputs = some (.accepted tmp)) :
    parse tmp = [] := by
  induction edits generalizing inputs with
  | nil => simp [Visudo.runLoop] at h
  | cons t rest ih =>
    rw [Visudo.runLoop] at h
    by_cases hp : (parse t).isEmpty
    · rw [if_pos hp] at h
      obtain rfl : t = tmp := by simpa using h
      simpa [List.isEmpty_iff] using hp
    · rw [if_neg hp] at h
      rcases hpl : Visudo.promptLoop inputs with ⟨ans, rest2⟩
      rw [hpl] at h
      cases ans with
      | editAgain => exact ih rest2 h
      | exitNoSave => simp at h
      | readError => simp at h

/-- Claim C2: specification-list evaluation is order-sensitive in
negation: for the list `!ghost, %users` a candidate named `ghost` who is a
member of group `users` evaluates to `true` (a later positive match
overrides the earlier negative item), while for the list `%users, !ghost`
the same candidate evaluates to `false`. -/
theorem negation_is_order_sensitive (c : Sudoers.Principal)
    (hn : c.name = "ghost") (hg : c.groups.contains "users" = true) :
    Sudoers.evaluate [] (Sudoers.principalTest c) negFirstList = true ∧
    Sudoers.evaluate [] (Sudoers.principalTest c) negLastList = false := by
  have hg' : "users" ∈ c.groups := by simpa using hg
  constructor <;>
    simp [Sudoers.evaluate, Sudoers.evalItems, Sudoers.principalTest,
      negFirstList, negLastList, hn, hg']

/-- Witness for claim C2, at the concrete `ghost` principal. -/
theorem negation_is_order_sensitive_w :
    Sudoers.evaluate [] (Sudoers.principalTest ghostP) negFirstList = true ∧
    Sudoers.evaluate [] (Sudoers.principalTest ghostP) negLastList = false :=
  negation_is_order_sensitive ghostP rfl (by decide)

/-- Claim C3: alias expansion reuses the same last-match-wins evaluator:
with `User_Alias ADMINS = %users, !ghost`, the list `ADMINS` evaluates to
`true` for a candidate who is a member of group `users` and is not named
`ghost`, and to `false` for the candidate `ghost`. -/
theorem user_alias_works (c : Sudoers.Principal)
    (hg : c.groups.contains "users" = true) :
    ((c.name == "ghost") = false →
      Sudoers.evaluate adminsTable (Sudoers.principalTest c) adminsList
        = true) ∧
    (c.name = "ghost" →
      Sudoers.evaluate adminsTable (Sudoers.principalTest c) adminsList
        = false) := by
  have hg' : "users" ∈ c.groups := by simpa using hg
  constructor <;> intro h <;>
    simp [Sudoers.evaluate, Sudoers.evalItems, Sudoers.aliasMatches,
      Sudoers.lookupAlias, Sudoers.principalTest, adminsTable, adminsList,
      hg', h]

/-- Witness for claim C3, at the concrete `ferris` and `ghost`
principals. -/
theorem user_alias_works_w :
    Sudoers.evaluate adminsTable (Sudoers.principalTest ferrisP) adminsList
      = true ∧
    Sudoers.evaluate adminsTable (Sudoers.principalTest ghostP) adminsList
      = false :=
  ⟨(user_alias_works ferrisP (by decide)).1 (by decide),
   (user_alias_works ghostP (by decide)).2 rfl⟩

/-- Claim C4: a named-group predicate tests group membership, not name
equality: the list `%users` matches every candidate one of whose groups is
`users`, and does not match a candidate literally named `users` who is not
a member of that group. -/
theorem group_matches_membership :
    (∀ c : Sudoers.Principal, c.groups.contains "users" = true →
        Sudoers.evaluate [] (Sudoers.principalTest c) usersGroupList
          = true) ∧
    Sudoers.evaluate [] (Sudoers.principalTest namedUsersP) usersGroupList
      = false := by
  constructor
  · intro c hg
    have hg' : "users" ∈ c.groups := by simpa using hg
    simp [Sudoers.evaluate, Sudoers.evalItems, Sudoers.principalTest,
      usersGroupList, hg']
  · decide

/-- Witness for claim C4, at the concrete `ferris` principal whose primary
group is `users`. -/
theorem group_matches_membership_w :
    Sudoers.evaluate [] (Sudoers.principalTest ferrisP) usersGroupList
      = true :=
  group_matches_membership.1 ferrisP (by decide)

/-- Claim C5: double negation cancels: the list `!!root` evaluated against
the principal `root` yields `true` — and `root` is authorized with the
`NOPASSWD` tag under the rule `!!root ALL=(ALL:ALL) NOPASSWD: ALL` — while
the list `!root` evaluated against `root` yields `false`. -/
theorem double_negative_is_positive :
    Sudoers.evaluate [] (Sudoers.principalTest rootP) doubleNegList
      = true ∧
    Sudoers.evaluate [] (Sudoers.principalTest rootP) singleNegList
      = false ∧
    Sudoers.decide doubleNegPolicy rootRequest
      = .authorizedWith [.noPasswd] := by
  decide

/-- Claim C6: for the policy `ALL ALL=(ALL:ALL) NOPASSWD: ALL`, `decide`
authorizes every principal, on every host, as every run-as target, for
every command, and the resulting verdict carries the `NOPASSWD` tag. -/
theorem all_policy_authorizes_everyone (q : Sudoers.Request) :
    Sudoers.decide allPolicy q = .authorizedWith [.noPasswd] ∧
    Sudoers.Tag.noPasswd ∈ (Sudoers.decide allPolicy q).tagSet := by
  obtain ⟨p, h, ru, rg, cmd⟩ := q
  cases rg <;> exact ⟨rfl, List.Mem.head _⟩

/-- Witness for claim C6, at the concrete request by `root`. -/
theorem all_policy_authorizes_everyone_w :
    Sudoers.decide allPolicy rootRequest = .authorizedWith [.noPasswd] ∧
    Sudoers.Tag.noPasswd ∈ (Sudoers.decide allPolicy rootRequest).tagSet :=
  all_policy_authorizes_everyone rootRequest

/-- Claim C7: for the empty policy model, `decide` yields the
distinguished no-matching-rule outcome for every request, an outcome that
is treated as denial (not authorized). -/
theorem empty_policy_no_matching_rule (q : Sudoers.Request) :
    Sudoers.decide emptyPolicy q = .noMatchingRule ∧
    (Sudoers.decide emptyPolicy q).isAuthorized = false :=
  ⟨rfl, rfl⟩

/-- Witness for claim C7, at the concrete request by `root`. -/
theorem empty_policy_no_matching_rule_w :
    Sudoers.decide emptyPolicy rootRequest = .noMatchingRule ∧
    (Sudoers.decide emptyPolicy rootRequest).isAuthorized = false :=
  empty_policy_no_matching_rule rootRequest

/-- Claim C8: `check` gates the parse on the diagnostic sequence: with the
permission and owner validations not in effect (explicit file, both flags
off), a non-empty diagnostic sequence makes `check` fail with the invalid
sudoers file error carrying one `syntax error: <message>` line per
diagnostic, and an empty sequence makes it succeed reporting the file
parsed OK. -/
theorem check_gates_parse (meta : Visudo.FileMeta)
    (errors : List Diagnostic) :
    (errors ≠ [] → Visudo.check true false false meta errors =
        .invalidSudoersFile
          (errors.map (fun e => "syntax error: " ++ e.message))) ∧
    (errors = [] → Visudo.check true false false meta errors =
        .parsedOK) := by
  constructor
  · intro h
    cases errors with
    | nil => exact absurd rfl h
    | cons e es => rfl
  · intro h
    subst h
    rfl

/-- Witness for claim C8, at a concrete diagnostic and its rendering. -/
theorem check_gates_parse_w :
    Visudo.check true false false sampleMeta [sampleDiag] =
      .invalidSudoersFile
        ([sampleDiag].map (fun e => "syntax error: " ++ e.message)) ∧
    Visudo.check true false false sampleMeta [] = .parsedOK :=
  ⟨(check_gates_parse sampleMeta [sampleDiag]).1 (by decide),
   (check_gates_parse sampleMeta []).2 rfl⟩

/-- Claim C9: when `check` runs on the default policy file (no file
argument) or with the respective flag set, it fails before the parse
result matters: with a mode whose low nine bits are not `0440` it fails
with the bad-permissions error, and with the mode right but an owner other
than uid 0 and gid 0 it fails with the wrong-owner error; for an
explicitly given file with both flags off the metadata is ignored
entirely. -/
theorem check_validates_perms_owner (meta : Visudo.FileMeta)
    (errors : List Diagnostic) (fileArgGiven perms owner : Bool) :
    ((fileArgGiven = false ∨ perms = true) →
        meta.mode &&& 0o777 ≠ 0o440 →
        Visudo.check fileArgGiven perms owner meta errors =
          .badPerms (meta.mode &&& 0o777)) ∧
    ((fileArgGiven = false ∨ owner = true) →
        meta.mode &&& 0o777 = 0o440 →
        ¬(meta.uid = 0 ∧ meta.gid = 0) →
        Visudo.check fileArgGiven perms owner meta errors =
          .badOwner meta.uid meta.gid) ∧
    (∀ meta2 : Visudo.FileMeta,
        Visudo.check true false false meta errors =
          Visudo.check true false false meta2 errors) := by
  refine ⟨?_, ?_, fun meta2 => rfl⟩
  · intro hf hm
    rcases hf with h | h <;> subst h <;> simp [Visudo.check, hm]
  · intro hf hm h3
    rcases hf with h | h <;> subst h <;> simp [Visudo.check, hm, h3]

/-- Witness for claim C9, at concrete bad-mode and bad-owner metadata. -/
theorem check_validates_perms_owner_w :
    Visudo.check false false false badModeMeta [] =
      .badPerms (badModeMeta.mode &&& 0o777) ∧
    Visudo.check false false false badOwnerMeta [] =
      .badOwner badOwnerMeta.uid badOwnerMeta.gid ∧
    Visudo.check true false false badModeMeta [] =
      Visudo.check true false false badOwnerMeta [] :=
  ⟨(check_validates_perms_owner badModeMeta [] false false false).1
      (Or.inl rfl) (by decide),
   (check_validates_perms_owner badOwnerMeta [] false false false).2.1
      (Or.inl rfl) (by decide) (by decide),
   (check_validates_perms_owner badModeMeta [] true false false).2.2
      badOwnerMeta⟩

/-- Claim C1: the staged edited contents are never written to the live
sudoers file while parsing the staged copy yields a non-empty diagnostic
sequence: the edit/validate loop exits to the write step only after a
parse of the temporary file returns zero diagnostics, every outcome that
writes the live file carries contents whose parse returned zero
diagnostics, and choosing exit-without-saving yields an outcome that does
not write the live file. -/
theorem run_never_writes_unparsed (parse : Visudo.Bytes → List Diagnostic)
    (orig : Visudo.Bytes) (edits : List Visudo.Bytes) (inputs : List Nat) :
    (∀ tmp, Visudo.runLoop parse edits inputs = some (.accepted tmp) →
        parse tmp = []) ∧
    (∀ o, Visudo.runResult parse orig edits inputs = some o →
        o.writesLive = true →
        ∃ tmp, o = Visudo.RunOutcome.wroteSudoers tmp ∧ parse tmp = []) ∧
    (Visudo.runLoop parse edits inputs = some .exitWithoutSaving →
        ∀ o, Visudo.runResult parse orig edits inputs = some o →
          o.writesLive = false) := by
  refine ⟨fun tmp h => runLoop_accepted_parse_empty parse edits inputs tmp h,
    ?_, ?_⟩
  · intro o ho hw
    rw [Visudo.runResult] at ho
    rcases hL : Visudo.runLoop parse edits inputs with _ | ex
    · rw [hL] at ho; simp at ho
    · rw [hL] at ho
      cases ex with
      | exitWithoutSaving =>
        simp at ho; subst ho; simp [Visudo.RunOutcome.writesLive] at hw
      | inputReadError =>
        simp at ho; subst ho; simp [Visudo.RunOutcome.writesLive] at hw
      | accepted t =>
        by_cases ht : t == orig
        · simp [ht] at ho
          subst ho
          simp [Visudo.RunOutcome.writesLive] at hw
        · simp [ht] at ho
          subst ho
          exact ⟨t, rfl,
            runLoop_accepted_parse_empty parse edits inputs t hL⟩
  · intro h o ho
    rw [Visudo.runResult, h] at ho
    simp at ho
    subst ho
    rfl

/-- Witness for claim C1: a concrete session whose write carries contents
parsing cleanly, and a concrete session ending in exit-without-saving. -/
theorem run_never_writes_unparsed_w :
    (∃ tmp, Visudo.RunOutcome.wroteSudoers ([1] : Visudo.Bytes) =
        Visudo.RunOutcome.wroteSudoers tmp ∧ parseOnlyOnes tmp = []) ∧
    (Visudo.RunOutcome.exitedWithoutSaving).writesLive = false :=
  ⟨(run_never_writes_unparsed parseOnlyOnes [2] demoEdits demoInputs).2.1
      (.wroteSudoers [1]) (by decide) rfl,
   (run_never_writes_unparsed parseOnlyOnes [2] [[0]] [120]).2.2
      (by decide) .exitedWithoutSaving (by decide)⟩

/-- Claim C10: if, after the edit/validate loop finishes, the contents of
the edited temporary file are byte-for-byte equal to the original sudoers
contents read at the start of `run`, then `run` performs no write to the
sudoers file (it only reports it unchanged); the write happens only when
the contents differ. -/
theorem run_skips_write_when_unchanged
    (parse : Visudo.Bytes → List Diagnostic) (orig tmp : Visudo.Bytes)
    (edits : List Visudo.Bytes) (inputs : List Nat)
    (h : Visudo.runLoop parse edits inputs = some (.accepted tmp)) :
    (tmp = orig →
      Visudo.runResult parse orig edits inputs = some .unchanged) ∧
    (tmp ≠ orig →
      Visudo.runResult parse orig edits inputs =
        some (.wroteSudoers tmp)) := by
  constructor <;> intro h2 <;> simp [Visudo.runResult, h, h2]

/-- Witness for claim C10: one session where the accepted draft equals the
original contents, and one where it differs. -/
theorem run_skips_write_when_unchanged_w :
    Visudo.runResult parseClean [5] [[5]] [] = some .unchanged ∧
    Visudo.runResult parseClean [6] [[5]] [] =
      some (.wroteSudoers [5]) :=
  ⟨(run_skips_write_when_unchanged parseClean [5] [5] [[5]] []
      (by decide)).1 rfl,
   (run_skips_write_when_unchanged parseClean [6] [5] [[5]] []
      (by decide)).2 (by decide)⟩
